import Mathlib

/-!
Shallow embedding of the Music Journal backend (`src/index.js`).

The relational store is modelled as in-memory lists of rows, one list per
table, and each Express route handler as a pure function from a request and
a database state to a response and a new state.  Timestamps produced by the
store (`created_at`, `updated_at`) are modelled by an explicit `now : Nat`
argument.  External collaborators keep their interface shape: the bcrypt
primitives become function parameters (`hash`, `compare`), and the session
layer is modelled by passing the authenticated `userId` directly to the
handlers guarded by `requireLogin`.
-/

namespace MusicJournal

/-- JavaScript values as delivered to the handlers by the JSON body parser.
`undef` stands for an absent field (JavaScript `undefined`).  Numbers are
modelled as exact rationals. -/
inductive JsVal where
  | undef : JsVal
  | null : JsVal
  | num (q : ℚ) : JsVal
  | str (s : String) : JsVal
  | bool (b : Bool) : JsVal
deriving DecidableEq

/-- JavaScript truthiness: `undefined`, `null`, `0`, the empty string and
`false` are falsy, everything else in our value fragment is truthy. -/
def JsVal.falsy : JsVal → Bool
  | .undef => true
  | .null => true
  | .num q => q == 0
  | .str s => s == ""
  | .bool b => !b

/-- The loose comparison `x == null`, true exactly for `undefined` and `null`. -/
def JsVal.isNullish : JsVal → Bool
  | .undef => true
  | .null => true
  | _ => false

/-- Whitespace stripped by the JavaScript `Number()` string coercion
(ASCII fragment). -/
def isJsWhitespace (c : Char) : Bool :=
  c == ' ' || c == '\t' || c == '\n' || c == '\x0b' || c == '\x0c' || c == '\r'

def isAsciiDigit (c : Char) : Bool := '0' ≤ c && c ≤ '9'

def digitsToNat (l : List Char) : Nat :=
  l.foldl (fun acc c => acc * 10 + (c.toNat - 48)) 0

/-- Models the JavaScript `Number()` coercion of a string, on the fragment of
plain optionally-signed decimal literals with an optional fractional part;
`none` stands for `NaN`.  An empty or all-whitespace string coerces to `0`. -/
def parseJsNumber (s : String) : Option ℚ :=
  let cs := ((s.data.dropWhile isJsWhitespace).reverse.dropWhile isJsWhitespace).reverse
  if cs.isEmpty then some 0
  else
    let signNeg := cs.head? == some '-'
    let body := if cs.head? == some '-' || cs.head? == some '+' then cs.tail else cs
    let intPart := body.takeWhile isAsciiDigit
    let rest := body.dropWhile isAsciiDigit
    let val : Option ℚ :=
      match rest with
      | [] => if intPart.isEmpty then none else some (digitsToNat intPart)
      | '.' :: frac =>
        if frac.all isAsciiDigit && !(intPart.isEmpty && frac.isEmpty) then
          some (mkRat (digitsToNat intPart * 10 ^ frac.length + digitsToNat frac)
                      (10 ^ frac.length))
        else none
      | _ => none
    val.map (fun q => if signNeg then -q else q)

/-- The JavaScript `Number()` coercion on our value fragment
(`none` stands for `NaN`). -/
def toNumber : JsVal → Option ℚ
  | .undef => none
  | .null => some 0
  | .num q => some q
  | .str s => parseJsNumber s
  | .bool b => some (if b then 1 else 0)

/-- `Number.isInteger` on an exact rational. -/
def isIntegerQ (q : ℚ) : Bool := q.den == 1

/-! ## The password strength regex

`passwordMeetsRequirements` in `index.js` tests the regex
with lookaheads for a lowercase letter, an uppercase letter, a digit and a
non-alphanumeric character, followed by at least eight dots anchored at both
ends.  Without the `s` flag, `.` matches every character except the four
line terminators, and without the `m` flag the anchors match only the real
ends of the string. -/

def isAsciiLower (c : Char) : Bool := 'a' ≤ c && c ≤ 'z'

def isAsciiUpper (c : Char) : Bool := 'A' ≤ c && c ≤ 'Z'

def isAsciiAlnum (c : Char) : Bool := isAsciiLower c || isAsciiUpper c || isAsciiDigit c

/-- The four JavaScript line terminators, which `.` does not match. -/
def isLineTerminator (c : Char) : Bool :=
  c == '\n' || c == '\r' || c == '\u2028' || c == '\u2029'

/-- A character matched by `.` in a JavaScript regex without the `s` flag. -/
def jsDot (c : Char) : Bool := !isLineTerminator c

/-- The lookahead for dot-star followed by a character class, evaluated at the
start of the string: a character satisfying `cls` is reachable after zero or
more `.`-matched characters. -/
def lookaheadContains (cls : Char → Bool) : List Char → Bool
  | [] => false
  | c :: rest => cls c || (jsDot c && lookaheadContains cls rest)

/-- Translation of the password regex of `index.js` line 81: the four
lookaheads, then at-least-eight dots spanning the whole string. -/
def passwordMeetsRequirements (password : String) : Bool :=
  let cs := password.data
  lookaheadContains isAsciiLower cs &&
  lookaheadContains isAsciiUpper cs &&
  lookaheadContains isAsciiDigit cs &&
  lookaheadContains (fun c => !isAsciiAlnum c) cs &&
  (decide (8 ≤ cs.length) && cs.all jsDot)

/-- The password policy as the specification words it: length at least 8 and
at least one lowercase letter, one uppercase letter, one digit, and one
character outside the alphanumerics.  Stated for comparison with
`passwordMeetsRequirements`, which is translated from the code's regex. -/
def specPasswordOk (password : String) : Bool :=
  let cs := password.data
  decide (8 ≤ cs.length) &&
  cs.any isAsciiLower &&
  cs.any isAsciiUpper &&
  cs.any isAsciiDigit &&
  cs.any (fun c => !isAsciiAlnum c)

/-! ## Data model -/

structure User where
  id : Nat
  username : String
  passwordHash : String
deriving DecidableEq

structure Album where
  id : Nat
  externalId : String
  title : String
  artist : String
  coverUrl : Option String
deriving DecidableEq

structure UserAlbum where
  userId : Nat
  albumId : Nat
  notes : Option JsVal
  createdAt : Nat
deriving DecidableEq

structure TrackRating where
  userId : Nat
  albumId : Nat
  trackId : String
  trackName : String
  rating : ℚ
  updatedAt : Nat
deriving DecidableEq

/-- The database state: one list of rows per table, plus the auto-increment
counters. -/
structure DB where
  users : List User
  albums : List Album
  userAlbums : List UserAlbum
  trackRatings : List TrackRating
  nextUserId : Nat
  nextAlbumId : Nat
deriving DecidableEq

/-- An HTTP response: either an error status with its message body, or the
route's success payload. -/
inductive ApiResp (α : Type) where
  | err (status : Nat) (msg : String) : ApiResp α
  | ok (val : α) : ApiResp α
deriving DecidableEq

/-! ## Helper functions of `index.js` -/

/-- `findUserByUsername`: first row of the users table whose username equals
the argument (string equality in the store, exact match). -/
def findUserByUsername (db : DB) (username : String) : Option User :=
  db.users.find? (fun u => u.username == username)

/-- `findOrCreateAlbum`: look the album up by `external_id`; if present return
its id and leave the store unchanged, otherwise insert a new row and return
the fresh id. -/
def findOrCreateAlbum (db : DB) (externalId title artist : String)
    (coverUrl : Option String) : Nat × DB :=
  match db.albums.find? (fun a => a.externalId == externalId) with
  | some a => (a.id, db)
  | none =>
    (db.nextAlbumId,
      { db with
          albums := db.albums ++ [{ id := db.nextAlbumId, externalId := externalId,
                                    title := title, artist := artist, coverUrl := coverUrl }],
          nextAlbumId := db.nextAlbumId + 1 })

def sameUserAlbum (userId albumId : Nat) (ua : UserAlbum) : Bool :=
  ua.userId == userId && ua.albumId == albumId

/-- Effect of the `INSERT IGNORE` on the `user_albums` table: a no-op when
the (user, album) pair is already present, otherwise an insert with NULL
notes and the current timestamp. -/
def ensureUserAlbumList (l : List UserAlbum) (userId albumId now : Nat) : List UserAlbum :=
  if l.any (sameUserAlbum userId albumId) then l
  else l ++ [{ userId := userId, albumId := albumId, notes := none, createdAt := now }]

/-- `ensureUserAlbum` of `index.js`. -/
def ensureUserAlbum (db : DB) (userId albumId now : Nat) : DB :=
  { db with userAlbums := ensureUserAlbumList db.userAlbums userId albumId now }

/-! ## Route handlers -/

def missingCredsMsg : String := "Username and password required"

def weakPasswordMsg : String :=
  "Password must be at least 8 characters and include uppercase, lowercase, number, and special character."

def conflictMsg : String := "Username already taken"

def badCredsMsg : String := "Invalid username or password"

/-- `POST /api/register`.  `hash` is the external bcrypt hashing primitive. -/
def register (db : DB) (hash : String → String) (username password : String) :
    ApiResp (Nat × String) × DB :=
  if username == "" || password == "" then (.err 400 missingCredsMsg, db)
  else if !passwordMeetsRequirements password then (.err 400 weakPasswordMsg, db)
  else
    match findUserByUsername db username with
    | some _ => (.err 400 conflictMsg, db)
    | none =>
      (.ok (db.nextUserId, username),
        { db with
            users := db.users ++ [{ id := db.nextUserId, username := username,
                                    passwordHash := hash password }],
            nextUserId := db.nextUserId + 1 })

/-- `POST /api/login`.  `compare` is the external bcrypt comparison primitive;
the store itself is not modified by a login. -/
def login (db : DB) (compare : String → String → Bool) (username password : String) :
    ApiResp (Nat × String) :=
  if username == "" || password == "" then .err 400 missingCredsMsg
  else
    match findUserByUsername db username with
    | none => .err 400 badCredsMsg
    | some user =>
      if compare password user.passwordHash then .ok (user.id, user.username)
      else .err 400 badCredsMsg

/-- The `coverUrl || null` of the handlers: an empty (falsy) string becomes
NULL. -/
def optCover (coverUrl : String) : Option String :=
  if coverUrl == "" then none else some coverUrl

/-- The `albumTitle || "Unknown album"` default of the handlers. -/
def defTitle (albumTitle : String) : String :=
  if albumTitle == "" then "Unknown album" else albumTitle

/-- The `albumArtist || "Unknown artist"` default of the handlers. -/
def defArtist (albumArtist : String) : String :=
  if albumArtist == "" then "Unknown artist" else albumArtist

/-- `POST /api/user/albums` (after `requireLogin` resolved the session to
`userId`).  The optional `coverUrl` request field is a string, with the empty
string standing for a falsy/absent value as in the `coverUrl || null` source
expression. -/
def postUserAlbums (db : DB) (userId : Nat) (externalId title artist coverUrl : String)
    (now : Nat) : ApiResp Nat × DB :=
  if externalId == "" || title == "" || artist == "" then (.err 400 "Missing album data", db)
  else
    let r := findOrCreateAlbum db externalId title artist (optCover coverUrl)
    (.ok r.1, ensureUserAlbum r.2 userId r.1 now)

/-- A row of the `GET /api/user/albums` response. -/
structure AlbumRow where
  externalId : String
  title : String
  artist : String
  coverUrl : Option String
  createdAt : Nat
  notes : Option JsVal
deriving DecidableEq

/-- The JOIN of a `user_albums` row with its album; a dangling album id drops
the row, as an SQL inner join does. -/
def joinRow (db : DB) (ua : UserAlbum) : Option AlbumRow :=
  (db.albums.find? (fun a => a.id == ua.albumId)).map
    (fun a => { externalId := a.externalId, title := a.title, artist := a.artist,
                coverUrl := a.coverUrl, createdAt := ua.createdAt, notes := ua.notes })

/-- Insertion step of a sort by `createdAt` descending. -/
def insertByCreatedDesc (x : AlbumRow) : List AlbumRow → List AlbumRow
  | [] => [x]
  | y :: ys => if y.createdAt ≤ x.createdAt then x :: y :: ys else y :: insertByCreatedDesc x ys

/-- The store's `ORDER BY ua.created_at DESC`, as an insertion sort. -/
def sortByCreatedDesc : List AlbumRow → List AlbumRow
  | [] => []
  | x :: xs => insertByCreatedDesc x (sortByCreatedDesc xs)

/-- `GET /api/user/albums`: the user's journaled albums joined with the album
metadata, most recently journaled first. -/
def listAlbums (db : DB) (userId : Nat) : List AlbumRow :=
  sortByCreatedDesc ((db.userAlbums.filter (fun ua => ua.userId == userId)).filterMap (joinRow db))

/-- `POST /api/user/album-notes`: resolve or create the album (with default
title and artist when the request omits them), ensure the `user_albums` row,
then overwrite its notes column with `notes || null`. -/
def postAlbumNotes (db : DB) (userId : Nat)
    (albumExternalId albumTitle albumArtist coverUrl : String) (notes : JsVal)
    (now : Nat) : ApiResp Unit × DB :=
  if albumExternalId == "" then (.err 400 "Missing albumExternalId", db)
  else
    let r := findOrCreateAlbum db albumExternalId (defTitle albumTitle)
      (defArtist albumArtist) (optCover coverUrl)
    let db2 := ensureUserAlbum r.2 userId r.1 now
    let stored := if notes.falsy then none else some notes
    (.ok (),
      { db2 with userAlbums := (db2.userAlbums.map
          (fun ua => if sameUserAlbum userId r.1 ua then { ua with notes := stored } else ua)) })

def sameRatingKey (userId albumId : Nat) (trackId : String) (r : TrackRating) : Bool :=
  r.userId == userId && r.albumId == albumId && r.trackId == trackId

def ratingRangeMsg : String := "Rating must be an integer between 1 and 5"

/-- Effect of the `INSERT ... ON DUPLICATE KEY UPDATE` on the `track_ratings`
table: if a row with the (user, album, track) key exists, overwrite its
rating and refresh `updated_at`; otherwise insert a new row. -/
def upsertRatingList (l : List TrackRating) (userId albumId : Nat)
    (trackId trackName : String) (rating : ℚ) (now : Nat) : List TrackRating :=
  if l.any (sameRatingKey userId albumId trackId) then
    l.map (fun r => if sameRatingKey userId albumId trackId r
                    then { r with rating := rating, updatedAt := now } else r)
  else
    l ++ [{ userId := userId, albumId := albumId, trackId := trackId,
            trackName := trackName, rating := rating, updatedAt := now }]

/-- The rating upsert statement of `POST /api/user/ratings`. -/
def upsertTrackRating (db : DB) (userId albumId : Nat) (trackId trackName : String)
    (rating : ℚ) (now : Nat) : DB :=
  { db with trackRatings := upsertRatingList db.trackRatings userId albumId
                              trackId trackName rating now }

/-- `POST /api/user/ratings`: validate presence, coerce the rating with
`Number()`, check it is an integer between 1 and 5, then resolve the album,
ensure the `user_albums` row and upsert the rating. -/
def postRating (db : DB) (userId : Nat)
    (albumExternalId albumTitle albumArtist coverUrl trackId trackName : String)
    (rating : JsVal) (now : Nat) : ApiResp Unit × DB :=
  if albumExternalId == "" || trackId == "" || trackName == "" || rating.isNullish then
    (.err 400 "Missing rating data", db)
  else
    match toNumber rating with
    | none => (.err 400 ratingRangeMsg, db)
    | some q =>
      if !isIntegerQ q || decide (q < 1) || decide (5 < q) then (.err 400 ratingRangeMsg, db)
      else
        let r := findOrCreateAlbum db albumExternalId (defTitle albumTitle)
          (defArtist albumArtist) (optCover coverUrl)
        let db2 := ensureUserAlbum r.2 userId r.1 now
        (.ok (), upsertTrackRating db2 userId r.1 trackId trackName q now)

/-- An entry of the `GET /api/user/ratings/:externalId` response map. -/
structure RatingEntry where
  trackId : String
  trackName : String
  rating : ℚ
deriving DecidableEq

/-- Assignment to a JavaScript object key: an existing key keeps its position
and gets the new value, a new key is appended. -/
def insertEntry (m : List (String × RatingEntry)) (k : String) (v : RatingEntry) :
    List (String × RatingEntry) :=
  if m.any (fun p => p.1 == k) then m.map (fun p => if p.1 == k then (k, v) else p)
  else m ++ [(k, v)]

/-- `GET /api/user/ratings/:externalId`: resolve the external id; if no album
carries it, the empty map; otherwise the user's rating rows for that album,
keyed by track id as the handler's loop builds them. -/
def getRatings (db : DB) (userId : Nat) (externalId : String) :
    List (String × RatingEntry) :=
  match db.albums.find? (fun a => a.externalId == externalId) with
  | none => []
  | some album =>
    (db.trackRatings.filter (fun r => r.userId == userId && r.albumId == album.id)).foldl
      (fun m r => insertEntry m r.trackId
        { trackId := r.trackId, trackName := r.trackName, rating := r.rating }) []

/-! ## Store invariants -/

/-- The id of the album carrying an external id, if any. -/
def albumIdOf (db : DB) (externalId : String) : Option Nat :=
  (db.albums.find? (fun a => a.externalId == externalId)).map (fun a => a.id)

/-- Uniqueness of `external_id` over the albums table. -/
def albumsUnique (db : DB) : Prop :=
  db.albums.Pairwise (fun a b => a.externalId ≠ b.externalId)

/-- Pairwise distinctness of the (user, album, track) keys of a list of
rating rows. -/
def trackKeyUnique (l : List TrackRating) : Prop :=
  l.Pairwise
    (fun r1 r2 => ¬(r1.userId = r2.userId ∧ r1.albumId = r2.albumId ∧ r1.trackId = r2.trackId))

/-- At most one `track_ratings` row per (user, album, track) key: the store's
unique key constraint. -/
def ratingsKeyUnique (db : DB) : Prop :=
  trackKeyUnique db.trackRatings

/-! ## Concrete states and collaborators for closed instances -/

/-- The freshly provisioned store: all tables empty. -/
def dbEmpty : DB :=
  { users := [], albums := [], userAlbums := [], trackRatings := [],
    nextUserId := 1, nextAlbumId := 1 }

/-- A concrete stand-in for the external bcrypt hashing primitive. -/
def idHash : String → String := fun p => p

/-- A concrete stand-in for the external bcrypt comparison primitive,
matching `idHash`. -/
def eqCompare : String → String → Bool := fun p h => p == h

/-- A store holding the single registered user `alice`. -/
def aliceDB : DB :=
  { users := [{ id := 1, username := "alice", passwordHash := "hunter2" }],
    albums := [], userAlbums := [], trackRatings := [],
    nextUserId := 2, nextAlbumId := 1 }

/-- A store holding the single registered user `Alice` (capitalised). -/
def aliceCaseDB : DB :=
  { users := [{ id := 1, username := "Alice", passwordHash := "h" }],
    albums := [], userAlbums := [], trackRatings := [],
    nextUserId := 2, nextAlbumId := 1 }

/-! ## Auxiliary lemmas -/

/-- Under a string of `.`-matchable characters, the lookahead test coincides
with plain containment. -/
theorem lookaheadContains_eq_any (cls : Char → Bool) (cs : List Char)
    (h : cs.all jsDot = true) : lookaheadContains cls cs = cs.any cls := by
  induction cs with
  | nil => rfl
  | cons c rest ih =>
    rw [List.all_cons, Bool.and_eq_true] at h
    rw [lookaheadContains, List.any_cons, h.1, ih h.2]
    simp

/-- The regex test decomposes into the specification's five conditions plus
the absence of line terminators. -/
theorem passwordMeetsRequirements_iff (p : String) :
    passwordMeetsRequirements p = true ↔
      (specPasswordOk p = true ∧ p.data.all jsDot = true) := by
  simp only [passwordMeetsRequirements, specPasswordOk]
  by_cases h : p.data.all jsDot = true
  · rw [lookaheadContains_eq_any _ _ h, lookaheadContains_eq_any _ _ h,
        lookaheadContains_eq_any _ _ h, lookaheadContains_eq_any _ _ h]
    simp [h]
    tauto
  · simp [h]

/-- A second `findOrCreateAlbum` with the same external id returns the same
album id and leaves the store unchanged. -/
theorem findOrCreateAlbum_twice (db : DB) (e t1 a1 t2 a2 : String)
    (c1 c2 : Option String) :
    findOrCreateAlbum (findOrCreateAlbum db e t1 a1 c1).2 e t2 a2 c2 =
      ((findOrCreateAlbum db e t1 a1 c1).1, (findOrCreateAlbum db e t1 a1 c1).2) := by
  unfold findOrCreateAlbum
  cases h : db.albums.find? (fun a => a.externalId == e) with
  | some a => simp [h]
  | none => simp [h, List.find?_append]

/-- After `findOrCreateAlbum`, the external id resolves to the returned id. -/
theorem albumIdOf_findOrCreateAlbum (db : DB) (e t a : String) (c : Option String) :
    albumIdOf (findOrCreateAlbum db e t a c).2 e = some (findOrCreateAlbum db e t a c).1 := by
  unfold albumIdOf findOrCreateAlbum
  cases h : db.albums.find? (fun a => a.externalId == e) with
  | some a => simp [h]
  | none => simp [h, List.find?_append]

theorem findOrCreateAlbum_trackRatings (db : DB) (e t a : String) (c : Option String) :
    (findOrCreateAlbum db e t a c).2.trackRatings = db.trackRatings := by
  unfold findOrCreateAlbum
  cases h : db.albums.find? (fun x => x.externalId == e) <;> simp [h]

theorem findOrCreateAlbum_userAlbums (db : DB) (e t a : String) (c : Option String) :
    (findOrCreateAlbum db e t a c).2.userAlbums = db.userAlbums := by
  unfold findOrCreateAlbum
  cases h : db.albums.find? (fun x => x.externalId == e) <;> simp [h]

theorem sameRatingKey_iff (u a : Nat) (tid : String) (r : TrackRating) :
    sameRatingKey u a tid r = true ↔ (r.userId = u ∧ r.albumId = a ∧ r.trackId = tid) := by
  simp [sameRatingKey, Bool.and_eq_true, and_assoc]

theorem sameUserAlbum_iff (u a : Nat) (ua : UserAlbum) :
    sameUserAlbum u a ua = true ↔ (ua.userId = u ∧ ua.albumId = a) := by
  simp [sameUserAlbum, Bool.and_eq_true]

/-- Two database states with the same albums table resolve external ids
identically. -/
theorem albumIdOf_congr (db1 db2 : DB) (e : String) (h : db1.albums = db2.albums) :
    albumIdOf db1 e = albumIdOf db2 e := by
  unfold albumIdOf
  rw [h]

/-- Under the unique-key invariant a key matches at most one rating row. -/
theorem trackKeyUnique_filter_le_one (l : List TrackRating) (u a : Nat) (tid : String)
    (h : trackKeyUnique l) : (l.filter (sameRatingKey u a tid)).length ≤ 1 := by
  induction l with
  | nil => simp
  | cons r rest ih =>
    rw [trackKeyUnique, List.pairwise_cons] at h
    by_cases hk : sameRatingKey u a tid r = true
    · rw [List.filter_cons_of_pos hk]
      have hnil : rest.filter (sameRatingKey u a tid) = [] := by
        rw [List.filter_eq_nil_iff]
        intro x hx hxk
        obtain ⟨hu, ha, ht⟩ := (sameRatingKey_iff u a tid r).mp hk
        obtain ⟨hu', ha', ht'⟩ := (sameRatingKey_iff u a tid x).mp hxk
        exact h.1 x hx ⟨hu.trans hu'.symm, ha.trans ha'.symm, ht.trans ht'.symm⟩
      rw [hnil]
      simp
    · rw [List.filter_cons_of_neg hk]
      exact ih h.2

/-- Filtering after an in-place update of exactly the matching rows equals
updating the filtered rows, provided the update preserves the predicate. -/
theorem filter_map_update {α : Type} (l : List α) (p : α → Bool) (g : α → α)
    (hg : ∀ x, p (g x) = p x) :
    (l.map (fun x => if p x then g x else x)).filter p = (l.filter p).map g := by
  induction l with
  | nil => rfl
  | cons x xs ih =>
    by_cases hx : p x = true
    · simp [hx, hg x, ih]
    · have hx' : p x = false := by simpa using hx
      simp [hx', ih]

/-- The rating upsert leaves exactly one row for its key, carrying the new
rating and the fresh timestamp, provided the unique-key invariant held. -/
theorem upsertRatingList_filter (l : List TrackRating) (u a : Nat) (tid tn : String)
    (q : ℚ) (t : Nat) (h : trackKeyUnique l) :
    ∃ name, (upsertRatingList l u a tid tn q t).filter (sameRatingKey u a tid) =
      [{ userId := u, albumId := a, trackId := tid, trackName := name,
         rating := q, updatedAt := t }] := by
  unfold upsertRatingList
  by_cases hany : l.any (sameRatingKey u a tid) = true
  · rw [if_pos hany]
    rw [filter_map_update l (sameRatingKey u a tid)
          (fun r => { r with rating := q, updatedAt := t }) (fun x => rfl)]
    have hle := trackKeyUnique_filter_le_one l u a tid h
    obtain ⟨x, hxmem, hxk⟩ := List.any_eq_true.mp hany
    have hxf : x ∈ l.filter (sameRatingKey u a tid) := List.mem_filter.mpr ⟨hxmem, hxk⟩
    have hlen : (l.filter (sameRatingKey u a tid)).length = 1 := by
      have : 0 < (l.filter (sameRatingKey u a tid)).length :=
        List.length_pos.mpr (List.ne_nil_of_mem hxf)
      omega
    obtain ⟨r0, hr0⟩ := List.length_eq_one.mp hlen
    have hr0k : sameRatingKey u a tid r0 = true := by
      have : r0 ∈ l.filter (sameRatingKey u a tid) := by rw [hr0]; exact List.mem_singleton_self r0
      exact (List.mem_filter.mp this).2
    obtain ⟨hu, ha, ht⟩ := (sameRatingKey_iff u a tid r0).mp hr0k
    refine ⟨r0.trackName, ?_⟩
    rw [hr0]
    cases r0 with
    | mk u0 a0 tid0 tn0 q0 t0 =>
      simp only [List.map_cons, List.map_nil]
      simp_all
  · rw [if_neg hany]
    rw [List.filter_append]
    have hnil : l.filter (sameRatingKey u a tid) = [] := by
      rw [List.filter_eq_nil_iff]
      intro x hx hxk
      exact (List.any_eq_false.mp (by simpa using hany)) x hx hxk
    refine ⟨tn, ?_⟩
    rw [hnil]
    simp [sameRatingKey]

/-- The rating upsert preserves the unique-key invariant. -/
theorem upsertRatingList_keyUnique (l : List TrackRating) (u a : Nat) (tid tn : String)
    (q : ℚ) (t : Nat) (h : trackKeyUnique l) :
    trackKeyUnique (upsertRatingList l u a tid tn q t) := by
  unfold upsertRatingList
  by_cases hany : l.any (sameRatingKey u a tid) = true
  · rw [if_pos hany]
    rw [trackKeyUnique, List.pairwise_map]
    refine h.imp ?_
    intro r1 r2 hne hkeys
    apply hne
    revert hkeys
    by_cases h1 : sameRatingKey u a tid r1 = true <;>
      by_cases h2 : sameRatingKey u a tid r2 = true <;>
        simp [h1, h2]
  · rw [if_neg hany]
    rw [trackKeyUnique, List.pairwise_append]
    refine ⟨h, by simp, ?_⟩
    intro r1 hr1 r2 hr2 hkeys
    rw [List.mem_singleton] at hr2
    subst hr2
    simp only at hkeys
    have : sameRatingKey u a tid r1 = true :=
      (sameRatingKey_iff u a tid r1).mpr ⟨hkeys.1, hkeys.2.1, hkeys.2.2⟩
    exact (List.any_eq_false.mp (by simpa using hany)) r1 hr1 this

/-- After the rating upsert some row carries the key and the new rating. -/
theorem upsertRatingList_mem (l : List TrackRating) (u a : Nat) (tid tn : String)
    (q : ℚ) (t : Nat) :
    ∃ r ∈ upsertRatingList l u a tid tn q t,
      r.userId = u ∧ r.albumId = a ∧ r.trackId = tid ∧ r.rating = q := by
  unfold upsertRatingList
  by_cases hany : l.any (sameRatingKey u a tid) = true
  · rw [if_pos hany]
    obtain ⟨x, hxmem, hxk⟩ := List.any_eq_true.mp hany
    obtain ⟨hu, ha, ht⟩ := (sameRatingKey_iff u a tid x).mp hxk
    refine ⟨{ x with rating := q, updatedAt := t }, ?_, hu, ha, ht, rfl⟩
    refine List.mem_map.mpr ⟨x, hxmem, ?_⟩
    rw [if_pos hxk]
  · rw [if_neg hany]
    exact ⟨_, List.mem_append_right l (List.mem_singleton_self _), rfl, rfl, rfl, rfl⟩

/-- The insert-ignore always leaves some row for the (user, album) pair. -/
theorem ensureUserAlbumList_mem (l : List UserAlbum) (u a t : Nat) :
    ∃ ua ∈ ensureUserAlbumList l u a t, ua.userId = u ∧ ua.albumId = a := by
  unfold ensureUserAlbumList
  by_cases hany : l.any (sameUserAlbum u a) = true
  · rw [if_pos hany]
    obtain ⟨x, hxmem, hxk⟩ := List.any_eq_true.mp hany
    obtain ⟨hu, ha⟩ := (sameUserAlbum_iff u a x).mp hxk
    exact ⟨x, hxmem, hu, ha⟩
  · rw [if_neg hany]
    exact ⟨_, List.mem_append_right l (List.mem_singleton_self _), rfl, rfl⟩

/-- Normal-form of a successful `POST /api/user/ratings`: once the request
fields are present and the coerced rating is an integer in range, the handler
resolves the album, ensures the journal row and upserts the rating. -/
theorem postRating_run (db : DB) (u : Nat) (e tt aa cc tid tn : String) (v : JsVal)
    (q : ℚ) (now : Nat)
    (he : (e == "") = false) (ht : (tid == "") = false) (hn : (tn == "") = false)
    (hv : v.isNullish = false) (hq : toNumber v = some q)
    (hint : isIntegerQ q = true) (h1 : ¬(q < 1)) (h5 : ¬(5 < q)) :
    postRating db u e tt aa cc tid tn v now =
      (ApiResp.ok (),
        upsertTrackRating
          (ensureUserAlbum
            (findOrCreateAlbum db e (defTitle tt) (defArtist aa) (optCover cc)).2 u
            (findOrCreateAlbum db e (defTitle tt) (defArtist aa) (optCover cc)).1 now)
          u (findOrCreateAlbum db e (defTitle tt) (defArtist aa) (optCover cc)).1
          tid tn q now) := by
  unfold postRating
  rw [he, ht, hn, hv, hq]
  simp [hint, h1, h5]

/-- Normal-form of a rejected `POST /api/user/ratings`: once the request
fields are present, a coerced rating that is not an integer between 1 and 5
is answered with the range error and the store is untouched. -/
theorem postRating_reject (db : DB) (u : Nat) (e tt aa cc tid tn : String) (v : JsVal)
    (q : ℚ) (now : Nat)
    (he : (e == "") = false) (ht : (tid == "") = false) (hn : (tn == "") = false)
    (hv : v.isNullish = false) (hq : toNumber v = some q)
    (hbad : (!isIntegerQ q || decide (q < 1) || decide (5 < q)) = true) :
    postRating db u e tt aa cc tid tn v now = (ApiResp.err 400 ratingRangeMsg, db) := by
  unfold postRating
  rw [he, ht, hn, hv, hq]
  simp [hbad]

/-! ## Claim C4 -/

/-- Claim C4: from any state satisfying the unique-key invariant, upserting a
rating of 3 and then a rating of 5 for the same (user, album, track) key
leaves exactly one `track_ratings` row for that key, carrying rating 5 and
the timestamp of the second call. -/
theorem C4_theorem (db : DB) (userId : Nat) (e tt aa cc tid tn : String) (t1 t2 : Nat)
    (hinv : ratingsKeyUnique db) (he : e ≠ "") (ht : tid ≠ "") (hn : tn ≠ "")
    (s1 s2 : DB)
    (hs1 : s1 = (postRating db userId e tt aa cc tid tn (JsVal.num 3) t1).2)
    (hs2 : s2 = (postRating s1 userId e tt aa cc tid tn (JsVal.num 5) t2).2) :
    ∃ aid, albumIdOf s2 e = some aid ∧
      ∃ name, s2.trackRatings.filter (sameRatingKey userId aid tid) =
        [{ userId := userId, albumId := aid, trackId := tid, trackName := name,
           rating := 5, updatedAt := t2 }] := by
  have he' : (e == "") = false := beq_eq_false_iff_ne.mpr he
  have ht' : (tid == "") = false := beq_eq_false_iff_ne.mpr ht
  have hn' : (tn == "") = false := beq_eq_false_iff_ne.mpr hn
  rw [postRating_run db userId e tt aa cc tid tn (JsVal.num 3) 3 t1 he' ht' hn' rfl rfl
      (by decide) (by decide) (by decide)] at hs1
  dsimp only at hs1
  set F := findOrCreateAlbum db e (defTitle tt) (defArtist aa) (optCover cc) with hF
  have hs1albums : s1.albums = F.2.albums := by rw [hs1]; rfl
  have hs1tr : s1.trackRatings = upsertRatingList db.trackRatings userId F.1 tid tn 3 t1 := by
    rw [hs1]
    exact congrArg (fun l => upsertRatingList l userId F.1 tid tn 3 t1)
      (findOrCreateAlbum_trackRatings db e _ _ _)
  have haidS1 : albumIdOf s1 e = some F.1 := by
    rw [albumIdOf_congr s1 F.2 e hs1albums]
    exact albumIdOf_findOrCreateAlbum db e _ _ _
  obtain ⟨alb, halb, halbid⟩ :
      ∃ alb, s1.albums.find? (fun a => a.externalId == e) = some alb ∧ alb.id = F.1 := by
    unfold albumIdOf at haidS1
    cases hfind : s1.albums.find? (fun a => a.externalId == e) with
    | none => rw [hfind] at haidS1; simp at haidS1
    | some alb =>
      rw [hfind] at haidS1
      simp at haidS1
      exact ⟨alb, rfl, haidS1⟩
  have hF2 : findOrCreateAlbum s1 e (defTitle tt) (defArtist aa) (optCover cc) = (F.1, s1) := by
    unfold findOrCreateAlbum
    simp [halb, halbid]
  rw [postRating_run s1 userId e tt aa cc tid tn (JsVal.num 5) 5 t2 he' ht' hn' rfl rfl
      (by decide) (by decide) (by decide), hF2] at hs2
  dsimp only at hs2
  have hs2tr : s2.trackRatings = upsertRatingList s1.trackRatings userId F.1 tid tn 5 t2 := by
    rw [hs2]; rfl
  have hs2albums : s2.albums = s1.albums := by rw [hs2]; rfl
  refine ⟨F.1, ?_, ?_⟩
  · rw [albumIdOf_congr s2 s1 e hs2albums]
    exact haidS1
  · rw [hs2tr, hs1tr]
    exact upsertRatingList_filter _ userId F.1 tid tn 5 t2
      (upsertRatingList_keyUnique db.trackRatings userId F.1 tid tn 3 t1 hinv)

/-- Closed instance of claim C4 on the empty store. -/
theorem C4_witness :
    ∃ aid,
      albumIdOf (postRating (postRating dbEmpty 1 "al1" "T" "A" "" "tr1" "Song"
          (JsVal.num 3) 10).2 1 "al1" "T" "A" "" "tr1" "Song" (JsVal.num 5) 20).2 "al1" =
        some aid ∧
      ∃ name,
        (postRating (postRating dbEmpty 1 "al1" "T" "A" "" "tr1" "Song"
            (JsVal.num 3) 10).2 1 "al1" "T" "A" "" "tr1" "Song"
            (JsVal.num 5) 20).2.trackRatings.filter (sameRatingKey 1 aid "tr1") =
          [{ userId := 1, albumId := aid, trackId := "tr1", trackName := name,
             rating := 5, updatedAt := 20 }] :=
  C4_theorem dbEmpty 1 "al1" "T" "A" "" "tr1" "Song" 10 20
    (by unfold ratingsKeyUnique trackKeyUnique dbEmpty; exact List.Pairwise.nil)
    (by decide) (by decide) (by decide) _ _ rfl rfl

/-! ## Claim C5 -/

/-- Claim C5: the rating values 0, 6 and 3.5 are rejected by the ratings
endpoint with the integer-range validation error, while the boundary values
1 and 5 are accepted. -/
theorem C5_theorem (db : DB) (u : Nat) (e tt aa cc tid tn : String) (now : Nat)
    (he : e ≠ "") (ht : tid ≠ "") (hn : tn ≠ "") :
    (postRating db u e tt aa cc tid tn (JsVal.num 0) now).1 =
      ApiResp.err 400 ratingRangeMsg ∧
    (postRating db u e tt aa cc tid tn (JsVal.num 6) now).1 =
      ApiResp.err 400 ratingRangeMsg ∧
    (postRating db u e tt aa cc tid tn (JsVal.num (mkRat 7 2)) now).1 =
      ApiResp.err 400 ratingRangeMsg ∧
    (postRating db u e tt aa cc tid tn (JsVal.num 1) now).1 = ApiResp.ok () ∧
    (postRating db u e tt aa cc tid tn (JsVal.num 5) now).1 = ApiResp.ok () := by
  have he' : (e == "") = false := beq_eq_false_iff_ne.mpr he
  have ht' : (tid == "") = false := beq_eq_false_iff_ne.mpr ht
  have hn' : (tn == "") = false := beq_eq_false_iff_ne.mpr hn
  refine ⟨?_, ?_, ?_, ?_, ?_⟩
  · rw [postRating_reject db u e tt aa cc tid tn (JsVal.num 0) 0 now he' ht' hn' rfl rfl (by decide)]
  · rw [postRating_reject db u e tt aa cc tid tn (JsVal.num 6) 6 now he' ht' hn' rfl rfl (by decide)]
  · rw [postRating_reject db u e tt aa cc tid tn (JsVal.num (mkRat 7 2)) (mkRat 7 2) now he' ht' hn' rfl rfl
        (by decide)]
  · rw [postRating_run db u e tt aa cc tid tn (JsVal.num 1) 1 now he' ht' hn' rfl rfl
        (by decide) (by decide) (by decide)]
  · rw [postRating_run db u e tt aa cc tid tn (JsVal.num 5) 5 now he' ht' hn' rfl rfl
        (by decide) (by decide) (by decide)]

/-- Closed instance of claim C5 on the empty store. -/
theorem C5_witness :
    (postRating dbEmpty 1 "al5" "T" "A" "" "tr5" "Five" (JsVal.num 0) 3).1 =
      ApiResp.err 400 ratingRangeMsg ∧
    (postRating dbEmpty 1 "al5" "T" "A" "" "tr5" "Five" (JsVal.num 6) 3).1 =
      ApiResp.err 400 ratingRangeMsg ∧
    (postRating dbEmpty 1 "al5" "T" "A" "" "tr5" "Five" (JsVal.num (mkRat 7 2)) 3).1 =
      ApiResp.err 400 ratingRangeMsg ∧
    (postRating dbEmpty 1 "al5" "T" "A" "" "tr5" "Five" (JsVal.num 1) 3).1 = ApiResp.ok () ∧
    (postRating dbEmpty 1 "al5" "T" "A" "" "tr5" "Five" (JsVal.num 5) 3).1 = ApiResp.ok () :=
  C5_theorem dbEmpty 1 "al5" "T" "A" "" "tr5" "Five" 3 (by decide) (by decide) (by decide)

/-! ## Claim C9 -/

/-- Claim C9: a rating supplied as a numeric string is coerced with
`Number()` before the integer-range check, so any string parsing to an
integer between 1 and 5 is accepted and stored as that integer. -/
theorem C9_theorem (db : DB) (u : Nat) (e tt aa cc tid tn : String) (s : String)
    (q : ℚ) (now : Nat)
    (he : e ≠ "") (ht : tid ≠ "") (hn : tn ≠ "")
    (hp : parseJsNumber s = some q) (hden : q.den = 1) (h1 : 1 ≤ q) (h5 : q ≤ 5)
    (s2 : DB) (hs2 : s2 = (postRating db u e tt aa cc tid tn (JsVal.str s) now).2) :
    (postRating db u e tt aa cc tid tn (JsVal.str s) now).1 = ApiResp.ok () ∧
    ∃ aid, albumIdOf s2 e = some aid ∧
      ∃ r ∈ s2.trackRatings,
        r.userId = u ∧ r.albumId = aid ∧ r.trackId = tid ∧ r.rating = q := by
  have he' : (e == "") = false := beq_eq_false_iff_ne.mpr he
  have ht' : (tid == "") = false := beq_eq_false_iff_ne.mpr ht
  have hn' : (tn == "") = false := beq_eq_false_iff_ne.mpr hn
  have hrun := postRating_run db u e tt aa cc tid tn (JsVal.str s) q now he' ht' hn'
    rfl hp (by simp [isIntegerQ, hden]) (not_lt.mpr h1) (not_lt.mpr h5)
  refine ⟨by rw [hrun], ?_⟩
  rw [hrun] at hs2
  dsimp only at hs2
  set F := findOrCreateAlbum db e (defTitle tt) (defArtist aa) (optCover cc) with hF
  refine ⟨F.1, ?_, ?_⟩
  · have halb : s2.albums = F.2.albums := by rw [hs2]; rfl
    rw [albumIdOf_congr s2 F.2 e halb]
    exact albumIdOf_findOrCreateAlbum db e _ _ _
  · have htr : s2.trackRatings = upsertRatingList db.trackRatings u F.1 tid tn q now := by
      rw [hs2]
      exact congrArg (fun l => upsertRatingList l u F.1 tid tn q now)
        (findOrCreateAlbum_trackRatings db e _ _ _)
    rw [htr]
    exact upsertRatingList_mem db.trackRatings u F.1 tid tn q now

/-- Closed instance of claim C9 at the numeric string `3`. -/
theorem C9_witness :
    (postRating dbEmpty 1 "al9" "" "" "" "tr9" "Nine" (JsVal.str "3") 7).1 =
      ApiResp.ok () ∧
    ∃ aid,
      albumIdOf (postRating dbEmpty 1 "al9" "" "" "" "tr9" "Nine" (JsVal.str "3") 7).2
          "al9" = some aid ∧
      ∃ r ∈ (postRating dbEmpty 1 "al9" "" "" "" "tr9" "Nine" (JsVal.str "3") 7).2.trackRatings,
        r.userId = 1 ∧ r.albumId = aid ∧ r.trackId = "tr9" ∧ r.rating = 3 :=
  C9_theorem dbEmpty 1 "al9" "" "" "" "tr9" "Nine" "3" 3 7 (by decide) (by decide)
    (by decide) (by decide) (by decide) (by decide) (by decide) _ rfl

theorem insertEntry_of_not_mem (m : List (String × RatingEntry)) (k : String)
    (v : RatingEntry) (h : m.any (fun p => p.1 == k) = false) :
    insertEntry m k v = m ++ [(k, v)] := by
  simp [insertEntry, h]

/-- Building the response object over rows with pairwise distinct track ids
appends one entry per row, in row order. -/
theorem foldl_insertEntry (rows : List TrackRating) (acc : List (String × RatingEntry))
    (hdisj : ∀ r ∈ rows, ∀ pr ∈ acc, pr.1 ≠ r.trackId)
    (hdist : rows.Pairwise (fun r1 r2 => r1.trackId ≠ r2.trackId)) :
    rows.foldl (fun m r => insertEntry m r.trackId
        { trackId := r.trackId, trackName := r.trackName, rating := r.rating }) acc =
      acc ++ rows.map (fun r => (r.trackId,
        ({ trackId := r.trackId, trackName := r.trackName,
           rating := r.rating } : RatingEntry))) := by
  induction rows generalizing acc with
  | nil => simp
  | cons r rest ih =>
    rw [List.foldl_cons]
    have hany : acc.any (fun p => p.1 == r.trackId) = false := by
      rw [List.any_eq_false]
      intro p hp
      simpa using hdisj r (List.mem_cons_self r rest) p hp
    rw [insertEntry_of_not_mem acc r.trackId _ hany]
    rw [List.pairwise_cons] at hdist
    have hdisj' : ∀ x ∈ rest, ∀ pr ∈ acc ++ [(r.trackId,
        ({ trackId := r.trackId, trackName := r.trackName,
           rating := r.rating } : RatingEntry))], pr.1 ≠ x.trackId := by
      intro x hx pr hpr
      rcases List.mem_append.mp hpr with hpa | hpb
      · exact hdisj x (List.mem_cons_of_mem r hx) pr hpa
      · rw [List.mem_singleton] at hpb
        subst hpb
        exact hdist.1 x hx
    rw [ih _ hdisj' hdist.2]
    simp

/-- Within one user's rows for one album, the unique-key invariant forces
pairwise distinct track ids. -/
theorem filtered_ratings_trackId_distinct (db : DB) (u aid : Nat)
    (hinv : ratingsKeyUnique db) :
    (db.trackRatings.filter (fun r => r.userId == u && r.albumId == aid)).Pairwise
      (fun r1 r2 => r1.trackId ≠ r2.trackId) := by
  have h0 : db.trackRatings.Pairwise
      (fun r1 r2 => ¬(r1.userId = r2.userId ∧ r1.albumId = r2.albumId ∧
        r1.trackId = r2.trackId)) := hinv
  refine List.Pairwise.imp_of_mem ?_ (h0.filter _)
  intro a b ha hb hR hcontra
  have ha' := (List.mem_filter.mp ha).2
  have hb' := (List.mem_filter.mp hb).2
  rw [Bool.and_eq_true, beq_iff_eq, beq_iff_eq] at ha' hb'
  exact hR ⟨ha'.1.trans hb'.1.symm, ha'.2.trans hb'.2.symm, hcontra⟩

/-! ## Claim C7 -/

/-- Claim C7: `getRatings` for an unknown external id returns the empty
mapping, not an error; for a known album it returns exactly this user's
rating rows for that album, keyed by track id. -/
theorem C7_theorem (db : DB) (u : Nat) (e : String) :
    (albumIdOf db e = none → getRatings db u e = []) ∧
    (∀ aid, albumIdOf db e = some aid → ratingsKeyUnique db →
      getRatings db u e =
        (db.trackRatings.filter (fun r => r.userId == u && r.albumId == aid)).map
          (fun r => (r.trackId,
            ({ trackId := r.trackId, trackName := r.trackName,
               rating := r.rating } : RatingEntry)))) := by
  constructor
  · intro hnone
    unfold getRatings
    unfold albumIdOf at hnone
    cases hfind : db.albums.find? (fun a => a.externalId == e) with
    | none => rfl
    | some alb => rw [hfind] at hnone; simp at hnone
  · intro aid hsome hinv
    unfold getRatings
    unfold albumIdOf at hsome
    cases hfind : db.albums.find? (fun a => a.externalId == e) with
    | none => rw [hfind] at hsome; simp at hsome
    | some alb =>
      rw [hfind] at hsome
      simp at hsome
      dsimp only
      rw [foldl_insertEntry _ [] (by simp)
            (filtered_ratings_trackId_distinct db u alb.id hinv)]
      rw [hsome]
      simp

/-- A concrete store with one album and three rating rows, two of them by
user 7. -/
def ratingsDB : DB :=
  { users := [],
    albums := [{ id := 1, externalId := "ext1", title := "T", artist := "A",
                 coverUrl := none }],
    userAlbums := [],
    trackRatings :=
      [{ userId := 7, albumId := 1, trackId := "t1", trackName := "One",
         rating := 4, updatedAt := 0 },
       { userId := 7, albumId := 1, trackId := "t2", trackName := "Two",
         rating := 5, updatedAt := 0 },
       { userId := 8, albumId := 1, trackId := "t1", trackName := "One",
         rating := 2, updatedAt := 0 }],
    nextUserId := 9, nextAlbumId := 2 }

/-- Closed instance of claim C7 on a concrete store. -/
theorem C7_witness :
    getRatings ratingsDB 7 "missing" = [] ∧
    getRatings ratingsDB 7 "ext1" =
      (ratingsDB.trackRatings.filter (fun r => r.userId == 7 && r.albumId == 1)).map
        (fun r => (r.trackId,
          ({ trackId := r.trackId, trackName := r.trackName,
             rating := r.rating } : RatingEntry))) :=
  ⟨(C7_theorem ratingsDB 7 "missing").1 (by decide),
   (C7_theorem ratingsDB 7 "ext1").2 1 (by decide)
     (by unfold ratingsKeyUnique trackKeyUnique ratingsDB
         refine List.Pairwise.cons ?_ (List.Pairwise.cons ?_ (List.Pairwise.cons ?_ List.Pairwise.nil)) <;>
           intro x hx <;> fin_cases hx <;> decide)⟩

/-! ## Claim C8 -/

theorem mem_insertByCreatedDesc (x z : AlbumRow) (l : List AlbumRow) :
    z ∈ insertByCreatedDesc x l ↔ z = x ∨ z ∈ l := by
  induction l with
  | nil => simp [insertByCreatedDesc]
  | cons y ys ih =>
    unfold insertByCreatedDesc
    by_cases hc : y.createdAt ≤ x.createdAt
    · rw [if_pos hc]
      simp [or_comm, or_left_comm]
    · rw [if_neg hc]
      simp [ih]
      tauto

theorem pairwise_insertByCreatedDesc (x : AlbumRow) (l : List AlbumRow)
    (h : l.Pairwise (fun a b => b.createdAt ≤ a.createdAt)) :
    (insertByCreatedDesc x l).Pairwise (fun a b => b.createdAt ≤ a.createdAt) := by
  induction l with
  | nil => simp [insertByCreatedDesc]
  | cons y ys ih =>
    rw [List.pairwise_cons] at h
    unfold insertByCreatedDesc
    by_cases hc : y.createdAt ≤ x.createdAt
    · rw [if_pos hc]
      rw [List.pairwise_cons]
      refine ⟨?_, List.pairwise_cons.mpr h⟩
      intro z hz
      rcases List.mem_cons.mp hz with rfl | hz'
      · exact hc
      · exact le_trans (h.1 z hz') hc
    · rw [if_neg hc]
      rw [List.pairwise_cons]
      refine ⟨?_, ih h.2⟩
      intro z hz
      rcases (mem_insertByCreatedDesc x z ys).mp hz with rfl | hz'
      · exact le_of_not_le hc
      · exact h.1 z hz'

/-- The modelled `ORDER BY created_at DESC` always yields a sequence with
non-increasing timestamps. -/
theorem sortByCreatedDesc_pairwise (l : List AlbumRow) :
    (sortByCreatedDesc l).Pairwise (fun a b => b.createdAt ≤ a.createdAt) := by
  induction l with
  | nil => exact List.Pairwise.nil
  | cons x xs ih => exact pairwise_insertByCreatedDesc x _ ih

/-- Normal-form of a successful `POST /api/user/albums`. -/
theorem postUserAlbums_run (db : DB) (u : Nat) (e t a c : String) (now : Nat)
    (he : (e == "") = false) (ht : (t == "") = false) (ha : (a == "") = false) :
    postUserAlbums db u e t a c now =
      (ApiResp.ok (findOrCreateAlbum db e t a (optCover c)).1,
        ensureUserAlbum (findOrCreateAlbum db e t a (optCover c)).2 u
          (findOrCreateAlbum db e t a (optCover c)).1 now) := by
  unfold postUserAlbums
  rw [he, ht, ha]
  rfl

/-- The state reached from `db` after journaling two fresh albums in
sequence: both albums inserted, both `user_albums` rows inserted, and the
auto-increment counter advanced twice. -/
def twoAlbumState (db : DB) (u : Nat) (eA tA aA : String) (cA : Option String)
    (eB tB aB : String) (cB : Option String) (t1 t2 : Nat) : DB :=
  { db with
      albums := (db.albums ++ [{ id := db.nextAlbumId, externalId := eA, title := tA,
                                 artist := aA, coverUrl := cA }]) ++
                [{ id := db.nextAlbumId + 1, externalId := eB, title := tB,
                   artist := aB, coverUrl := cB }],
      userAlbums := (db.userAlbums ++ [{ userId := u, albumId := db.nextAlbumId,
                                         notes := none, createdAt := t1 }]) ++
                    [{ userId := u, albumId := db.nextAlbumId + 1, notes := none,
                       createdAt := t2 }],
      nextAlbumId := db.nextAlbumId + 1 + 1 }

/-- A fresh external id makes `findOrCreateAlbum` an insert. -/
theorem findOrCreateAlbum_fresh (db : DB) (e t a : String) (c : Option String)
    (hfind : db.albums.find? (fun x => x.externalId == e) = none) :
    findOrCreateAlbum db e t a c =
      (db.nextAlbumId,
        { db with albums := db.albums ++ [{ id := db.nextAlbumId, externalId := e,
                                            title := t, artist := a, coverUrl := c }],
                  nextAlbumId := db.nextAlbumId + 1 }) := by
  unfold findOrCreateAlbum
  rw [hfind]

/-- A missing (user, album) pair makes `ensureUserAlbum` an insert. -/
theorem ensureUserAlbum_fresh (db : DB) (u aid now : Nat)
    (hany : db.userAlbums.any (sameUserAlbum u aid) = false) :
    ensureUserAlbum db u aid now =
      { db with userAlbums := db.userAlbums ++
          [{ userId := u, albumId := aid, notes := none, createdAt := now }] } := by
  unfold ensureUserAlbum ensureUserAlbumList
  rw [hany]
  rfl

/-- Journaling two distinct fresh albums from a state where the user has no
journal rows produces `twoAlbumState`. -/
theorem postUserAlbums_twice (db : DB) (u : Nat) (eA tA aA cA eB tB aB cB : String)
    (t1 t2 : Nat)
    (hnoua : ∀ ua ∈ db.userAlbums, ua.userId ≠ u)
    (hfA : ∀ a ∈ db.albums, a.externalId ≠ eA)
    (hfB : ∀ a ∈ db.albums, a.externalId ≠ eB)
    (hAB : eA ≠ eB)
    (heA : (eA == "") = false) (htA : (tA == "") = false) (haA : (aA == "") = false)
    (heB : (eB == "") = false) (htB : (tB == "") = false) (haB : (aB == "") = false) :
    (postUserAlbums (postUserAlbums db u eA tA aA cA t1).2 u eB tB aB cB t2).2 =
      twoAlbumState db u eA tA aA (optCover cA) eB tB aB (optCover cB) t1 t2 := by
  have hfindA : db.albums.find? (fun x => x.externalId == eA) = none := by
    rw [List.find?_eq_none]
    intro x hx
    simpa using hfA x hx
  have hanyA : db.userAlbums.any (sameUserAlbum u db.nextAlbumId) = false := by
    rw [List.any_eq_false]
    intro x hx hk
    exact hnoua x hx ((sameUserAlbum_iff u db.nextAlbumId x).mp hk).1
  have hstep1 : (postUserAlbums db u eA tA aA cA t1).2 =
      { db with albums := db.albums ++ [⟨db.nextAlbumId, eA, tA, aA, optCover cA⟩],
                userAlbums := db.userAlbums ++ [⟨u, db.nextAlbumId, none, t1⟩],
                nextAlbumId := db.nextAlbumId + 1 } := by
    rw [postUserAlbums_run db u eA tA aA cA t1 heA htA haA,
        findOrCreateAlbum_fresh db eA tA aA (optCover cA) hfindA]
    dsimp only
    rw [ensureUserAlbum_fresh _ u db.nextAlbumId t1 (by dsimp only; exact hanyA)]
  rw [hstep1]
  have hfindB : (db.albums ++ [(⟨db.nextAlbumId, eA, tA, aA, optCover cA⟩ : Album)]).find?
        (fun x => x.externalId == eB) = none := by
    rw [List.find?_append]
    have h1 : db.albums.find? (fun x => x.externalId == eB) = none := by
      rw [List.find?_eq_none]
      intro x hx
      simpa using hfB x hx
    rw [h1]
    simp [List.find?, beq_eq_false_iff_ne.mpr hAB]
  have hanyB : (db.userAlbums ++ [(⟨u, db.nextAlbumId, none, t1⟩ : UserAlbum)]).any
        (sameUserAlbum u (db.nextAlbumId + 1)) = false := by
    rw [List.any_append]
    have h1 : db.userAlbums.any (sameUserAlbum u (db.nextAlbumId + 1)) = false := by
      rw [List.any_eq_false]
      intro x hx hk
      exact hnoua x hx ((sameUserAlbum_iff u (db.nextAlbumId + 1) x).mp hk).1
    rw [h1]
    simp [sameUserAlbum]
  rw [postUserAlbums_run _ u eB tB aB cB t2 heB htB haB,
      findOrCreateAlbum_fresh _ eB tB aB (optCover cB) (by dsimp only; exact hfindB)]
  dsimp only
  rw [ensureUserAlbum_fresh _ u _ t2 (by dsimp only; exact hanyB)]
  rfl

/-- `listAlbums` on `twoAlbumState` yields the two journaled albums, the
later one first. -/
theorem listAlbums_twoAlbumState (db : DB) (u : Nat) (eA tA aA : String)
    (cA : Option String) (eB tB aB : String) (cB : Option String) (t1 t2 : Nat)
    (hnoua : ∀ ua ∈ db.userAlbums, ua.userId ≠ u)
    (hids : ∀ a ∈ db.albums, a.id < db.nextAlbumId)
    (htt : t1 < t2) :
    listAlbums (twoAlbumState db u eA tA aA cA eB tB aB cB t1 t2) u =
      [{ externalId := eB, title := tB, artist := aB, coverUrl := cB,
         createdAt := t2, notes := none },
       { externalId := eA, title := tA, artist := aA, coverUrl := cA,
         createdAt := t1, notes := none }] := by
  have hfil0 : db.userAlbums.filter (fun ua => ua.userId == u) = [] := by
    rw [List.filter_eq_nil_iff]
    intro x hx hk
    exact hnoua x hx (by simpa using hk)
  have hfindidA : db.albums.find? (fun a => a.id == db.nextAlbumId) = none := by
    rw [List.find?_eq_none]
    intro x hx
    simp only [beq_iff_eq]
    exact Nat.ne_of_lt (hids x hx)
  have hfindidB : db.albums.find? (fun a => a.id == db.nextAlbumId + 1) = none := by
    rw [List.find?_eq_none]
    intro x hx
    simp only [beq_iff_eq]
    exact Nat.ne_of_lt (Nat.lt_trans (hids x hx) (Nat.lt_succ_self _))
  unfold listAlbums
  rw [show (twoAlbumState db u eA tA aA cA eB tB aB cB t1 t2).userAlbums =
      (db.userAlbums ++ [(⟨u, db.nextAlbumId, none, t1⟩ : UserAlbum)]) ++
      [(⟨u, db.nextAlbumId + 1, none, t2⟩ : UserAlbum)] from rfl]
  rw [List.filter_append, List.filter_append, hfil0]
  simp only [List.filter_cons, beq_self_eq_true, if_true, List.filter_nil,
    List.nil_append]
  have hjA : joinRow (twoAlbumState db u eA tA aA cA eB tB aB cB t1 t2)
      ⟨u, db.nextAlbumId, none, t1⟩ =
      some ⟨eA, tA, aA, cA, t1, none⟩ := by
    unfold joinRow twoAlbumState
    dsimp only
    rw [List.find?_append, List.find?_append, hfindidA]
    simp [List.find?]
  have hjB : joinRow (twoAlbumState db u eA tA aA cA eB tB aB cB t1 t2)
      ⟨u, db.nextAlbumId + 1, none, t2⟩ =
      some ⟨eB, tB, aB, cB, t2, none⟩ := by
    unfold joinRow twoAlbumState
    dsimp only
    rw [List.find?_append, List.find?_append, hfindidB]
    have : (db.nextAlbumId == db.nextAlbumId + 1) = false :=
      beq_eq_false_iff_ne.mpr (Nat.ne_of_lt (Nat.lt_succ_self _))
    simp [List.find?, this]
  rw [show ([(⟨u, db.nextAlbumId, none, t1⟩ : UserAlbum)] ++
        [(⟨u, db.nextAlbumId + 1, none, t2⟩ : UserAlbum)]).filterMap
          (joinRow (twoAlbumState db u eA tA aA cA eB tB aB cB t1 t2)) =
      [(⟨eA, tA, aA, cA, t1, none⟩ : AlbumRow), (⟨eB, tB, aB, cB, t2, none⟩ : AlbumRow)]
    from by simp [List.filterMap_cons, hjA, hjB]]
  have h21 : ¬(t2 ≤ t1) := not_le.mpr htt
  simp [sortByCreatedDesc, insertByCreatedDesc, h21]

/-- Claim C8: `listAlbums` always returns rows with non-increasing
`created_at`; journaling fresh album A and then fresh album B from a state
where the user has nothing journaled yields exactly the sequence
`[B, A]` — most recently journaled first. -/
theorem C8_theorem (db : DB) (u : Nat) (eA tA aA cA eB tB aB cB : String) (t1 t2 : Nat)
    (hnoua : ∀ ua ∈ db.userAlbums, ua.userId ≠ u)
    (hfA : ∀ a ∈ db.albums, a.externalId ≠ eA)
    (hfB : ∀ a ∈ db.albums, a.externalId ≠ eB)
    (hAB : eA ≠ eB)
    (hids : ∀ a ∈ db.albums, a.id < db.nextAlbumId)
    (htt : t1 < t2)
    (heA : eA ≠ "") (htA : tA ≠ "") (haA : aA ≠ "")
    (heB : eB ≠ "") (htB : tB ≠ "") (haB : aB ≠ "") (s2 : DB)
    (hs2 : s2 = (postUserAlbums (postUserAlbums db u eA tA aA cA t1).2 u eB tB aB cB t2).2) :
    (∀ db2 u2, (listAlbums db2 u2).Pairwise (fun x y => y.createdAt ≤ x.createdAt)) ∧
    listAlbums s2 u =
      [{ externalId := eB, title := tB, artist := aB, coverUrl := optCover cB,
         createdAt := t2, notes := none },
       { externalId := eA, title := tA, artist := aA, coverUrl := optCover cA,
         createdAt := t1, notes := none }] := by
  refine ⟨fun db2 u2 => sortByCreatedDesc_pairwise _, ?_⟩
  rw [hs2, postUserAlbums_twice db u eA tA aA cA eB tB aB cB t1 t2 hnoua hfA hfB hAB
      (beq_eq_false_iff_ne.mpr heA) (beq_eq_false_iff_ne.mpr htA)
      (beq_eq_false_iff_ne.mpr haA) (beq_eq_false_iff_ne.mpr heB)
      (beq_eq_false_iff_ne.mpr htB) (beq_eq_false_iff_ne.mpr haB)]
  exact listAlbums_twoAlbumState db u eA tA aA (optCover cA) eB tB aB (optCover cB)
    t1 t2 hnoua hids htt

/-- Closed instance of claim C8 on the empty store. -/
theorem C8_witness :
    (∀ db2 u2, (listAlbums db2 u2).Pairwise (fun x y => y.createdAt ≤ x.createdAt)) ∧
    listAlbums (postUserAlbums (postUserAlbums dbEmpty 4 "exA" "TitleA" "ArtA" "" 10).2
        4 "exB" "TitleB" "ArtB" "c.jpg" 20).2 4 =
      [{ externalId := "exB", title := "TitleB", artist := "ArtB",
         coverUrl := optCover "c.jpg", createdAt := 20, notes := none },
       { externalId := "exA", title := "TitleA", artist := "ArtA",
         coverUrl := optCover "", createdAt := 10, notes := none }] :=
  C8_theorem dbEmpty 4 "exA" "TitleA" "ArtA" "" "exB" "TitleB" "ArtB" "c.jpg" 10 20
    (by decide) (by decide) (by decide) (by decide) (by decide) (by decide)
    (by decide) (by decide) (by decide) (by decide) (by decide) (by decide) _ rfl

/-! ## Claim C1 -/

/-- Claim C1, as stated, is false on the code: the password made of an
uppercase letter, a lowercase letter, a digit, a special character and a
newline, eight characters long, satisfies all five conditions of the claim
(the newline itself is a character outside the alphanumerics), yet `register`
rejects it with the weak-password error, because the regex's dot does not
match a line terminator. -/
theorem C1_counterexample :
    specPasswordOk "Aa1!bbb\n" = true ∧
    (register dbEmpty idHash "bob" "Aa1!bbb\n").1 = ApiResp.err 400 weakPasswordMsg := by
  constructor
  · decide
  · decide

/-- Claim C1 (amended): for every non-empty username and password, `register`
fails with the weak-password error exactly when the password does not satisfy
all of: length at least 8, at least one lowercase letter, one uppercase
letter, one digit, one character outside the alphanumerics, and no line
terminator characters; in particular `abcdefg1` is rejected and `Abcdef1!`
is accepted. -/
theorem C1_theorem (db : DB) (hash : String → String) (u p : String)
    (hu : u ≠ "") (hp : p ≠ "") :
    ((register db hash u p).1 = ApiResp.err 400 weakPasswordMsg ↔
      ¬(specPasswordOk p = true ∧ p.data.all jsDot = true)) ∧
    passwordMeetsRequirements "abcdefg1" = false ∧
    passwordMeetsRequirements "Abcdef1!" = true := by
  refine ⟨?_, by decide, by decide⟩
  have hu' : (u == "") = false := beq_eq_false_iff_ne.mpr hu
  have hp' : (p == "") = false := beq_eq_false_iff_ne.mpr hp
  rw [← passwordMeetsRequirements_iff]
  unfold register
  rw [hu', hp']
  simp only [Bool.false_or, Bool.or_self, if_false]
  cases hreq : passwordMeetsRequirements p with
  | false =>
    simp only [hreq, Bool.not_false, if_true]
    simp
  | true =>
    simp only [hreq, Bool.not_true, if_false]
    cases hfind : findUserByUsername db u with
    | some usr => simp [hfind, conflictMsg, weakPasswordMsg]
    | none => simp [hfind]

/-- Closed instance of the amended claim C1 at the accepted example
password. -/
theorem C1_witness :
    ((register dbEmpty idHash "bob" "Abcdef1!").1 = ApiResp.err 400 weakPasswordMsg ↔
      ¬(specPasswordOk "Abcdef1!" = true ∧ "Abcdef1!".data.all jsDot = true)) ∧
    passwordMeetsRequirements "abcdefg1" = false ∧
    passwordMeetsRequirements "Abcdef1!" = true :=
  C1_theorem dbEmpty idHash "bob" "Abcdef1!" (by decide) (by decide)

/-! ## Claim C2 -/

/-- Claim C2, as stated, is false on the code at the empty username: with
`alice` registered, logging in with the nonexistent empty username yields the
missing-fields error while logging in as `alice` with a wrong password yields
the generic bad-credentials error, so the two failure responses differ. -/
theorem C2_counterexample :
    findUserByUsername aliceDB "" = none ∧
    findUserByUsername aliceDB "alice" =
      some { id := 1, username := "alice", passwordHash := "hunter2" } ∧
    eqCompare "wrong" "hunter2" = false ∧
    login aliceDB eqCompare "" "Pass123!" ≠ login aliceDB eqCompare "alice" "wrong" := by
  refine ⟨by decide, by decide, by decide, by decide⟩

/-- Claim C2 (amended): for every non-empty username and non-empty password,
a login with a nonexistent username and a login with an existing username but
a wrong password produce the identical failure response, the generic 400
`Invalid username or password`, never distinguishing the two cases. -/
theorem C2_theorem (db : DB) (compare : String → String → Bool)
    (u1 p1 u2 p2 : String) (usr : User)
    (hu1 : u1 ≠ "") (hp1 : p1 ≠ "") (hu2 : u2 ≠ "") (hp2 : p2 ≠ "")
    (h1 : findUserByUsername db u1 = none)
    (h2 : findUserByUsername db u2 = some usr)
    (h3 : compare p2 usr.passwordHash = false) :
    login db compare u1 p1 = login db compare u2 p2 ∧
    login db compare u1 p1 = ApiResp.err 400 badCredsMsg := by
  have hu1' : (u1 == "") = false := beq_eq_false_iff_ne.mpr hu1
  have hp1' : (p1 == "") = false := beq_eq_false_iff_ne.mpr hp1
  have hu2' : (u2 == "") = false := beq_eq_false_iff_ne.mpr hu2
  have hp2' : (p2 == "") = false := beq_eq_false_iff_ne.mpr hp2
  unfold login
  rw [hu1', hp1', hu2', hp2', h1, h2]
  simp [h3]

/-! ## Claim C3 -/

/-- Claim C3: `findOrCreateAlbum` called twice with the same external id but
different titles, artists and cover urls returns the same album id both
times, leaves the store unchanged on the second call, and the stored row
keeps the title, artist and cover url supplied on the first call. -/
theorem C3_theorem (db : DB) (e t1 a1 t2 a2 : String) (c1 c2 : Option String)
    (hfresh : ∀ a ∈ db.albums, a.externalId ≠ e) :
    (findOrCreateAlbum (findOrCreateAlbum db e t1 a1 c1).2 e t2 a2 c2).1 =
      (findOrCreateAlbum db e t1 a1 c1).1 ∧
    (findOrCreateAlbum (findOrCreateAlbum db e t1 a1 c1).2 e t2 a2 c2).2 =
      (findOrCreateAlbum db e t1 a1 c1).2 ∧
    (findOrCreateAlbum db e t1 a1 c1).2.albums.find? (fun a => a.externalId == e) =
      some { id := db.nextAlbumId, externalId := e, title := t1, artist := a1,
             coverUrl := c1 } := by
  have hnone : db.albums.find? (fun a => a.externalId == e) = none := by
    rw [List.find?_eq_none]
    intro a ha
    simpa using hfresh a ha
  refine ⟨by rw [findOrCreateAlbum_twice], by rw [findOrCreateAlbum_twice], ?_⟩
  unfold findOrCreateAlbum
  rw [hnone]
  simp [List.find?_append, hnone]

/-- Closed instance of claim C3 on the empty store. -/
theorem C3_witness :
    (findOrCreateAlbum (findOrCreateAlbum dbEmpty "sp:1" "OK Computer" "Radiohead" none).2
        "sp:1" "Other" "Band" (some "x.jpg")).1 =
      (findOrCreateAlbum dbEmpty "sp:1" "OK Computer" "Radiohead" none).1 ∧
    (findOrCreateAlbum (findOrCreateAlbum dbEmpty "sp:1" "OK Computer" "Radiohead" none).2
        "sp:1" "Other" "Band" (some "x.jpg")).2 =
      (findOrCreateAlbum dbEmpty "sp:1" "OK Computer" "Radiohead" none).2 ∧
    (findOrCreateAlbum dbEmpty "sp:1" "OK Computer" "Radiohead" none).2.albums.find?
        (fun a => a.externalId == "sp:1") =
      some { id := dbEmpty.nextAlbumId, externalId := "sp:1", title := "OK Computer",
             artist := "Radiohead", coverUrl := none } :=
  C3_theorem dbEmpty "sp:1" "OK Computer" "Radiohead" "Other" "Band" none (some "x.jpg")
    (by decide)

/-! ## Claim C6 -/

/-- Claim C6: for a strong password, `register` fails with the conflict error
exactly on a case-sensitive exact username match — an existing identical
username conflicts, while a username differing in any character (letter case
included) registers successfully. -/
theorem C6_theorem (db : DB) (hash : String → String) (u p : String)
    (hu : u ≠ "") (hp : passwordMeetsRequirements p = true) :
    ((∃ usr ∈ db.users, usr.username = u) →
      (register db hash u p).1 = ApiResp.err 400 conflictMsg) ∧
    ((∀ usr ∈ db.users, usr.username ≠ u) →
      (register db hash u p).1 = ApiResp.ok (db.nextUserId, u)) := by
  have hu' : (u == "") = false := beq_eq_false_iff_ne.mpr hu
  have hpne : p ≠ "" := by
    intro hcontra
    rw [hcontra] at hp
    exact absurd hp (by decide)
  have hp' : (p == "") = false := beq_eq_false_iff_ne.mpr hpne
  constructor
  · intro ⟨usr, husr, hname⟩
    unfold register
    rw [hu', hp', hp]
    have hfind : ∃ w, findUserByUsername db u = some w := by
      unfold findUserByUsername
      cases hf : db.users.find? (fun x => x.username == u) with
      | some w => exact ⟨w, rfl⟩
      | none =>
        exact absurd (beq_iff_eq.mpr hname) (List.find?_eq_none.mp hf usr husr)
    obtain ⟨w, hw⟩ := hfind
    rw [hw]
    rfl
  · intro hnone
    unfold register
    rw [hu', hp', hp]
    have hfind : findUserByUsername db u = none := by
      unfold findUserByUsername
      rw [List.find?_eq_none]
      intro x hx
      simpa using hnone x hx
    rw [hfind]
    rfl

/-- Closed instance of claim C6: with `Alice` registered, registering `alice`
(differing only in case) succeeds, while registering `Alice` again
conflicts. -/
theorem C6_witness :
    (register aliceCaseDB idHash "alice" "Abcdef1!").1 =
      ApiResp.ok (aliceCaseDB.nextUserId, "alice") ∧
    (register aliceCaseDB idHash "Alice" "Abcdef1!").1 = ApiResp.err 400 conflictMsg :=
  ⟨(C6_theorem aliceCaseDB idHash "alice" "Abcdef1!" (by decide) (by decide)).2 (by decide),
   (C6_theorem aliceCaseDB idHash "Alice" "Abcdef1!" (by decide) (by decide)).1 (by decide)⟩

/-- Components of a non-rejected `POST /api/user/album-notes` run: success
response, albums after the resolve-or-create, and the notes overwrite mapped
over the ensured `user_albums` table. -/
theorem postAlbumNotes_parts (db : DB) (u : Nat) (e tt aa cc : String) (v : JsVal)
    (now : Nat) (he : (e == "") = false) :
    (postAlbumNotes db u e tt aa cc v now).1 = ApiResp.ok () ∧
    (postAlbumNotes db u e tt aa cc v now).2.albums =
      (findOrCreateAlbum db e (defTitle tt) (defArtist aa) (optCover cc)).2.albums ∧
    (postAlbumNotes db u e tt aa cc v now).2.userAlbums =
      (ensureUserAlbumList
          (findOrCreateAlbum db e (defTitle tt) (defArtist aa) (optCover cc)).2.userAlbums
          u (findOrCreateAlbum db e (defTitle tt) (defArtist aa) (optCover cc)).1 now).map
        (fun ua =>
          if sameUserAlbum u
              (findOrCreateAlbum db e (defTitle tt) (defArtist aa) (optCover cc)).1 ua
          then { ua with notes := if v.falsy then none else some v } else ua) := by
  unfold postAlbumNotes
  rw [he]
  exact ⟨rfl, rfl, rfl⟩

/-! ## Claim C10 -/

/-- Claim C10: after ensuring the `user_albums` row exists, the album-notes
endpoint overwrites the notes column with `notes || null`; whenever the notes
field is absent or falsy (omitted, null, empty string, 0, false) every stored
row for this (user, album) pair ends up with NULL notes — previously saved
notes are cleared, not left unchanged. -/
theorem C10_theorem (db : DB) (u : Nat) (e tt aa cc : String) (v : JsVal) (now : Nat)
    (he : e ≠ "") (hfalsy : v.falsy = true) (s2 : DB)
    (hs2 : s2 = (postAlbumNotes db u e tt aa cc v now).2) :
    (postAlbumNotes db u e tt aa cc v now).1 = ApiResp.ok () ∧
    ∃ aid, albumIdOf s2 e = some aid ∧
      (∃ ua ∈ s2.userAlbums, ua.userId = u ∧ ua.albumId = aid) ∧
      ∀ ua ∈ s2.userAlbums, ua.userId = u → ua.albumId = aid → ua.notes = none := by
  have he' : (e == "") = false := beq_eq_false_iff_ne.mpr he
  obtain ⟨hok, halbs, huas⟩ := postAlbumNotes_parts db u e tt aa cc v now he'
  rw [hfalsy] at huas
  refine ⟨hok, ?_⟩
  set F := findOrCreateAlbum db e (defTitle tt) (defArtist aa) (optCover cc) with hF
  refine ⟨F.1, ?_, ?_, ?_⟩
  · have halb : s2.albums = F.2.albums := by rw [hs2]; exact halbs
    rw [albumIdOf_congr s2 F.2 e halb]
    exact albumIdOf_findOrCreateAlbum db e _ _ _
  · have hua : s2.userAlbums =
        (ensureUserAlbumList F.2.userAlbums u F.1 now).map
          (fun ua => if sameUserAlbum u F.1 ua then { ua with notes := none } else ua) := by
      rw [hs2]; exact huas
    rw [hua]
    obtain ⟨ua, huam, huau, huaa⟩ := ensureUserAlbumList_mem F.2.userAlbums u F.1 now
    refine ⟨(if sameUserAlbum u F.1 ua then { ua with notes := none } else ua),
      List.mem_map.mpr ⟨ua, huam, rfl⟩, ?_⟩
    by_cases hk : sameUserAlbum u F.1 ua = true
    · rw [if_pos hk]
      exact ⟨huau, huaa⟩
    · rw [if_neg hk]
      exact ⟨huau, huaa⟩
  · have hua : s2.userAlbums =
        (ensureUserAlbumList F.2.userAlbums u F.1 now).map
          (fun ua => if sameUserAlbum u F.1 ua then { ua with notes := none } else ua) := by
      rw [hs2]; exact huas
    rw [hua]
    intro x hx hxu hxa
    obtain ⟨ua, huam, hmap⟩ := List.mem_map.mp hx
    by_cases hk : sameUserAlbum u F.1 ua = true
    · rw [if_pos hk] at hmap
      rw [← hmap]
    · rw [if_neg hk] at hmap
      rw [← hmap] at hxu hxa
      exact absurd ((sameUserAlbum_iff u F.1 ua).mpr ⟨hxu, hxa⟩) hk

/-- Closed instance of claim C10: saving notes and then posting the same
album with an omitted notes field leaves NULL notes. -/
theorem C10_witness :
    (postAlbumNotes (postAlbumNotes dbEmpty 1 "al10" "T" "A" "" (JsVal.str "great") 4).2
        1 "al10" "T" "A" "" JsVal.undef 9).1 = ApiResp.ok () ∧
    ∃ aid,
      albumIdOf (postAlbumNotes (postAlbumNotes dbEmpty 1 "al10" "T" "A" ""
          (JsVal.str "great") 4).2 1 "al10" "T" "A" "" JsVal.undef 9).2 "al10" = some aid ∧
      (∃ ua ∈ (postAlbumNotes (postAlbumNotes dbEmpty 1 "al10" "T" "A" ""
          (JsVal.str "great") 4).2 1 "al10" "T" "A" "" JsVal.undef 9).2.userAlbums,
        ua.userId = 1 ∧ ua.albumId = aid) ∧
      ∀ ua ∈ (postAlbumNotes (postAlbumNotes dbEmpty 1 "al10" "T" "A" ""
          (JsVal.str "great") 4).2 1 "al10" "T" "A" "" JsVal.undef 9).2.userAlbums,
        ua.userId = 1 → ua.albumId = aid → ua.notes = none :=
  C10_theorem (postAlbumNotes dbEmpty 1 "al10" "T" "A" "" (JsVal.str "great") 4).2
    1 "al10" "T" "A" "" JsVal.undef 9 (by decide) (by decide) _ rfl

/-- Closed instance of the amended claim C2. -/
theorem C2_witness :
    login aliceDB eqCompare "bob" "pw1" = login aliceDB eqCompare "alice" "nope" ∧
    login aliceDB eqCompare "bob" "pw1" = ApiResp.err 400 badCredsMsg :=
  C2_theorem aliceDB eqCompare "bob" "pw1" "alice" "nope"
    { id := 1, username := "alice", passwordHash := "hunter2" }
    (by decide) (by decide) (by decide) (by decide) (by decide) (by decide) (by decide)

end MusicJournal
